import Mathlib

/-
  Formal model of the People Portal profile page (AppDev-PeoplePortalUI).

  The definitions below are a shallow embedding of the client-side logic in
  src/lib/validation.ts and src/components/fabric/DashboardPeopleInfo.tsx:
  pure string/byte manipulation is translated directly, and the stateful
  avatar-upload and profile-save flows are translated as explicit
  state-passing functions parameterised by the outcomes of the external
  calls (fetches, image decoding, compression), with an event trace
  recording the externally visible actions in program order.
-/

namespace PeoplePortal

/- ---------------------------------------------------------------------
   src/lib/validation.ts
   --------------------------------------------------------------------- -/

/-- Result shape of `validateFullName`: `{ isValid: boolean; error?: string }`. -/
structure ValidationResult where
  isValid : Bool
  error : Option String
  deriving DecidableEq

/-- Model of JavaScript `String.prototype.trim` on the character list of a
string: drop whitespace from both ends. -/
def jsTrim (s : List Char) : List Char :=
  ((s.dropWhile Char.isWhitespace).reverse.dropWhile Char.isWhitespace).reverse

/-- Model of `trimmed.split(/\s+/)`: cut the character list at every
whitespace character.  Splitting at each single whitespace character yields
empty pieces inside a whitespace run where the regex form would merge the
run, but the source immediately filters out empty pieces, so the composite
`split`-then-filter below agrees with the regex behaviour. -/
def splitWsAux : List Char → List Char → List (List Char)
  | [], acc => [acc.reverse]
  | c :: cs, acc =>
    if c.isWhitespace then acc.reverse :: splitWsAux cs []
    else splitWsAux cs (c :: acc)

/-- The `parts` computed by `validateFullName` (validation.ts lines 11-12):
trim the input, split on whitespace, keep only non-empty pieces. -/
def fullNameParts (s : String) : List (List Char) :=
  (splitWsAux (jsTrim s.toList) []).filter (fun part => part.length > 0)

/-- Embedding of `validateFullName` (validation.ts lines 6-19).  The guard
`!fullName || typeof fullName !== 'string'` reduces, for string inputs, to
the empty-string test. -/
def validateFullName (fullName : String) : ValidationResult :=
  if fullName = "" then
    { isValid := false, error := some "Full name is required" }
  else if (fullNameParts fullName).length < 2 then
    { isValid := false, error := some "Please provide both first and last name" }
  else
    { isValid := true, error := none }

/- ---------------------------------------------------------------------
   Signature Validator (DashboardPeopleInfo.tsx lines 127-158)
   --------------------------------------------------------------------- -/

/-- Lowercase hexadecimal digit character for a value below 16. -/
def hexDigitChar (n : Nat) : Char :=
  if n < 10 then Char.ofNat (48 + n) else Char.ofNat (87 + n)

/-- Model of JavaScript `b.toString(16)` for a `Uint8Array` entry
(a value in 0..255): lowercase hex WITHOUT zero-padding, so values below
16 render as a single character. -/
def byteToHexChars (b : Nat) : List Char :=
  if b < 16 then [hexDigitChar b] else [hexDigitChar (b / 16), hexDigitChar (b % 16)]

/-- The `header` string of `validateFileSignature`: the unpadded hex
renderings of the first (at most) four bytes, concatenated. -/
def fileHeaderHex (bytes : List Nat) : List Char :=
  ((bytes.take 4).map byteToHexChars).flatten

/-- Embedding of `validateFileSignature` (DashboardPeopleInfo.tsx lines
127-158), as a function of the bytes delivered by `file.slice(0, 4)`:
build the unpadded hex header and test it against the four recognized
magic-number hex strings with `startsWith`. -/
def validateFileSignature (bytes : List Nat) : Bool :=
  let header := fileHeaderHex bytes
  "89504e47".toList.isPrefixOf header ||
    "ffd8ff".toList.isPrefixOf header ||
    "47494638".toList.isPrefixOf header ||
    "52494646".toList.isPrefixOf header

/-- Modelled from the spec: the magic-number test as the specification
states it, at the level of raw bytes — the file's first bytes begin with
one of the four byte-level magic prefixes PNG `89 50 4e 47`,
JPEG `ff d8 ff`, GIF `47 49 46 38`, RIFF/WebP `52 49 46 46`.  This is the
comparison point for the claim that `validateFileSignature` rejects every
file whose first bytes match none of these prefixes. -/
def matchesMagicBytes (bytes : List Nat) : Bool :=
  [0x89, 0x50, 0x4e, 0x47].isPrefixOf bytes ||
    [0xff, 0xd8, 0xff].isPrefixOf bytes ||
    [0x47, 0x49, 0x46, 0x38].isPrefixOf bytes ||
    [0x52, 0x49, 0x46, 0x46].isPrefixOf bytes

/- ---------------------------------------------------------------------
   onFileChange (DashboardPeopleInfo.tsx lines 257-289)
   --------------------------------------------------------------------- -/

/-- A selected file as `onFileChange` observes it: declared MIME type,
reported byte size, and the bytes `file.slice(0, 4)` yields (the first
`min(size, 4)` bytes of the content). -/
structure SelectedFile where
  mime : String
  size : Nat
  headerBytes : List Nat
  deriving DecidableEq

/-- The MIME allow-list of `onFileChange`. -/
def allowedTypes : List String := ["image/jpeg", "image/png", "image/webp", "image/gif"]

/-- Outcome of `onFileChange` for a present file: which toast-rejection
fires, or acceptance (crop/zoom reset and the cropper dialog opened). -/
inductive FileChangeResult
  | rejectedType
  | rejectedSignature
  | rejectedSize
  | accepted
  deriving DecidableEq

/-- The three gates of `onFileChange`. -/
inductive FileCheck
  | typeCheck
  | signatureCheck
  | sizeCheck
  deriving DecidableEq

/-- Embedding of `onFileChange` (DashboardPeopleInfo.tsx lines 257-289) on
a present file: the MIME allow-list test, then `validateFileSignature`,
then the 20 MiB size test (`file.size > 20 * 1024 * 1024`), in source
order; the first failing gate rejects with its toast, and a file passing
all three proceeds to the cropper. -/
def onFileChange (f : SelectedFile) : FileChangeResult :=
  if ¬ allowedTypes.contains f.mime then FileChangeResult.rejectedType
  else if ¬ validateFileSignature f.headerBytes then FileChangeResult.rejectedSignature
  else if f.size > 20 * 1024 * 1024 then FileChangeResult.rejectedSize
  else FileChangeResult.accepted

/-- The gates `onFileChange` actually executes, in program order: the MIME
test always runs first; `validateFileSignature` runs (and the file content
is read) only if the MIME test passed; the size test runs only if the
signature test passed. -/
def onFileChangeChecks (f : SelectedFile) : List FileCheck :=
  if ¬ allowedTypes.contains f.mime then [FileCheck.typeCheck]
  else if ¬ validateFileSignature f.headerBytes then [FileCheck.typeCheck, FileCheck.signatureCheck]
  else [FileCheck.typeCheck, FileCheck.signatureCheck, FileCheck.sizeCheck]

/- ---------------------------------------------------------------------
   Data model (interfaces of DashboardPeopleInfo.tsx lines 42-194)
   --------------------------------------------------------------------- -/

/-- The `TeamType` enumeration. -/
inductive TeamType
  | project
  | corporate
  | bootcamp
  | service
  deriving DecidableEq

/-- Union of the `SeasonType` and `ServiceSeasonType` enumerations. -/
inductive SeasonKind
  | fall
  | spring
  | rolling
  deriving DecidableEq

/-- The `TeamAttributeDefinition` interface. -/
structure TeamAttributeDefinition where
  friendlyName : String
  teamType : TeamType
  seasonType : SeasonKind
  seasonYear : Nat
  description : String
  deriving DecidableEq

/-- The `UserAttributeDefinition` interface.  `roles` maps team pk to role
title; it is modelled as an entry list in object order, matching what
`Object.entries` yields.  `expectedGrad` arrives from the JSON API as a
string.  `avatar` is optional. -/
structure UserAttributeDefinition where
  major : String
  expectedGrad : String
  phoneNumber : String
  roles : List (String × String)
  alumniAccount : Bool
  avatar : Option String
  deriving DecidableEq

/-- One element of `groupsInfo` in `UserInformationDetail`. -/
structure GroupInfo where
  name : String
  pk : String
  attributes : TeamAttributeDefinition
  deriving DecidableEq

/-- The `UserInformationDetail` interface (brief fields plus the
detail-only fields). -/
structure UserInformationDetail where
  pk : String
  username : String
  name : String
  email : String
  memberSince : String
  active : Bool
  attributes : UserAttributeDefinition
  is_superuser : Bool
  avatar : String
  groups : List String
  last_login : String
  type : String
  groupsInfo : List GroupInfo
  deriving DecidableEq

/-- The `TeamInformationBrief` interface (from the memberof endpoint). -/
structure TeamInformationBrief where
  name : String
  pk : String
  parent : Option String
  teamType : TeamType
  seasonType : SeasonKind
  seasonYear : Nat
  description : String
  friendlyName : String
  peoplePortalCreation : Bool
  deriving DecidableEq

/-- One entry of the `UMDApiMajorListResponse` array. -/
structure UMDMajor where
  college : String
  major_id : String
  name : String
  url : String
  deriving DecidableEq

/- ---------------------------------------------------------------------
   Role entries (DashboardPeopleInfo.tsx lines 549-557)
   --------------------------------------------------------------------- -/

/-- The display tuple built per role: `{teamPk, roleTitle, teamInfo}`. -/
structure RoleEntry where
  teamPk : String
  roleTitle : String
  teamInfo : Option TeamInformationBrief
  deriving DecidableEq

/-- Lookup in the team map built by `fetchData` (a JavaScript `Map` keyed
by team `pk`, modelled as its entry list): `Map.get`, returning the value
stored under the key, or nothing when the key is absent. -/
def mapGet (m : List (String × TeamInformationBrief)) (k : String) : Option TeamInformationBrief :=
  (m.find? (fun entry => entry.1 == k)).map (fun entry => entry.2)

/-- Embedding of the `roleEntries` view-model builder (DashboardPeopleInfo.tsx
lines 551-557): map each `(teamPk, roleTitle)` entry of `attributes.roles`
to a `RoleEntry` carrying `userTeamsMap.get(teamPk)`, then keep only the
entries whose `teamInfo` resolved. -/
def roleEntries (roles : List (String × String)) (m : List (String × TeamInformationBrief)) :
    List RoleEntry :=
  (roles.map (fun r => { teamPk := r.1, roleTitle := r.2, teamInfo := mapGet m r.1 : RoleEntry })).filter
    (fun entry => entry.teamInfo.isSome)

/- ---------------------------------------------------------------------
   Avatar upload pipeline (DashboardPeopleInfo.tsx lines 291-332)
   --------------------------------------------------------------------- -/

/-- A pixel-space crop rectangle (the `Area` of react-easy-crop). -/
structure Area where
  x : Int
  y : Int
  width : Int
  height : Int
  deriving DecidableEq

/-- Outcomes of the external calls `processAndUploadAvatar` performs, in
program order: whether `getCroppedImg` resolves (and the message of the
error it rejects with otherwise), whether `imageCompression` resolves, the
object URL `URL.createObjectURL` mints for the processed file, whether the
upload-URL fetch returns ok, the `uploadUrl` and `key` of its JSON body,
and whether the storage POST returns ok. -/
structure UploadEnv where
  cropSucceeds : Bool
  cropErrorMsg : String
  compressSucceeds : Bool
  compressErrorMsg : String
  localUrl : String
  urlRequestOk : Bool
  uploadUrl : String
  key : String
  postOk : Bool
  deriving DecidableEq

/-- The component state `processAndUploadAvatar` reads and writes. -/
structure AvatarState where
  preview : Option String
  avatarKey : Option String
  isUploading : Bool
  cropImage : Option String
  croppedAreaPixels : Option Area
  isCroppingOpen : Bool
  deriving DecidableEq

/-- Externally visible actions of `processAndUploadAvatar`, recorded in
program order. -/
inductive UploadEvent
  | previewSet (url : String)
  | urlRequested
  | postAttempted (target : String)
  | keyAdopted (k : String)
  | errorToast (description : String)
  | successToast
  deriving DecidableEq

/-- Embedding of `processAndUploadAvatar` (DashboardPeopleInfo.tsx lines
291-332).  The guard returns unchanged when no crop image or crop area is
staged.  Otherwise `isUploading` is set and the cropper closed; the try
block then crops, compresses, swaps `preview` to the local object URL of
the processed file, requests the upload URL, POSTs to storage, and adopts
the returned key — each `await` that fails jumps to the catch, which shows
an error toast with the thrown message; the finally block clears
`isUploading` and `cropImage`. -/
def processAndUploadAvatar (env : UploadEnv) (s : AvatarState) : AvatarState × List UploadEvent :=
  if s.cropImage.isNone ∨ s.croppedAreaPixels.isNone then (s, [])
  else
    let s1 := { s with isUploading := true, isCroppingOpen := false }
    let afterTry :=
      if ¬ env.cropSucceeds then
        (s1, [UploadEvent.errorToast env.cropErrorMsg])
      else if ¬ env.compressSucceeds then
        (s1, [UploadEvent.errorToast env.compressErrorMsg])
      else
        let s2 := { s1 with preview := some env.localUrl }
        if ¬ env.urlRequestOk then
          (s2, [UploadEvent.previewSet env.localUrl, UploadEvent.urlRequested,
                UploadEvent.errorToast "Failed to get upload URL"])
        else if ¬ env.postOk then
          (s2, [UploadEvent.previewSet env.localUrl, UploadEvent.urlRequested,
                UploadEvent.postAttempted env.uploadUrl,
                UploadEvent.errorToast "Failed to upload to S3"])
        else
          ({ s2 with avatarKey := some env.key },
           [UploadEvent.previewSet env.localUrl, UploadEvent.urlRequested,
            UploadEvent.postAttempted env.uploadUrl,
            UploadEvent.keyAdopted env.key, UploadEvent.successToast])
    ({ afterTry.1 with isUploading := false, cropImage := none }, afterTry.2)

/- ---------------------------------------------------------------------
   Profile save (DashboardPeopleInfo.tsx lines 215-246 and 334-371)
   --------------------------------------------------------------------- -/

/-- The staged form state of `EditProfileModal`: phone number, graduation
date string of the date input, the selected major directory entry, the
candidate avatar storage key, and the avatar preview URL. -/
structure StagedForm where
  phoneNumber : String
  expectedGrad : String
  selectedMajor : Option UMDMajor
  avatarKey : Option String
  preview : Option String
  deriving DecidableEq

/-- JavaScript `a || b` on strings: the empty string is falsy. -/
def jsOrString (a b : String) : String :=
  if a = "" then b else a

/-- JavaScript `a || b` where `a` is a possibly-null/undefined string and
the result is a string: null, undefined and the empty string fall back. -/
def jsOrOptString (a : Option String) (b : String) : String :=
  match a with
  | none => b
  | some s => jsOrString s b

/-- JavaScript `a || b` where both sides are possibly-undefined strings. -/
def jsOrOptOpt (a b : Option String) : Option String :=
  match a with
  | none => b
  | some s => if s = "" then b else some s

/-- The merged record `handleSave` passes to `onSuccess` on a successful
PATCH (DashboardPeopleInfo.tsx lines 354-364): spread the prior user,
override the top-level `avatar` with `preview || user.avatar`, and spread
the prior attributes with `major: selectedMajor?.name || prior`,
`phoneNumber`, `expectedGrad: expectedGrad || prior`, and
`avatar: avatarKey || prior`. -/
def mergeOnSuccess (user : UserInformationDetail) (f : StagedForm) : UserInformationDetail :=
  { user with
    avatar := jsOrOptString f.preview user.avatar
    attributes := { user.attributes with
      major := jsOrOptString (f.selectedMajor.map (fun m => m.name)) user.attributes.major
      phoneNumber := f.phoneNumber
      expectedGrad := jsOrString f.expectedGrad user.attributes.expectedGrad
      avatar := jsOrOptOpt f.avatarKey user.attributes.avatar } }

/-- The staged form state as `EditProfileModal` initializes it from the
prior record (DashboardPeopleInfo.tsx lines 226-235 and the majors effect
at lines 246-255): `phoneNumber` from the prior attributes (`?? ""` is the
identity on the string model), `expectedGrad` empty when the prior value
is falsy and otherwise the `format(new Date(prior), 'yyyy-MM-dd')`
rendering — a timezone-dependent external computation, supplied here as
the parameter `gradRendering` — `selectedMajor` as the directory entry the
majors effect found (`majorInit`, which is the entry whose `name` equals
the prior major when the directory contains one, else nothing),
`avatarKey` from the prior attributes, and `preview` from the prior
top-level avatar. -/
def initialStagedForm (user : UserInformationDetail) (gradRendering : String)
    (majorInit : Option UMDMajor) : StagedForm :=
  { phoneNumber := user.attributes.phoneNumber
    expectedGrad := if user.attributes.expectedGrad = "" then "" else gradRendering
    selectedMajor := majorInit
    avatarKey := user.attributes.avatar
    preview := some user.avatar }

/-- Outcome of the PATCH round-trip in `handleSave`: ok, a non-ok response
whose JSON body optionally carries a `message`, or a thrown error (e.g. a
network failure) with its own message. -/
inductive PatchOutcome
  | ok
  | errResponse (message : Option String)
  | networkError (message : String)
  deriving DecidableEq

/-- A toast shown by `handleSave`. -/
structure ToastMsg where
  isError : Bool
  title : String
  description : Option String
  deriving DecidableEq

/-- Everything externally visible after one run of `handleSave`: the
argument `onSuccess` was invoked with (nothing if it was not invoked),
whether `onClose` ran, the toast, and the staged form values afterwards. -/
structure SaveOutcome where
  onSuccessArg : Option UserInformationDetail
  closedDialog : Bool
  toast : ToastMsg
  form : StagedForm
  deriving DecidableEq

/-- Embedding of `handleSave` (DashboardPeopleInfo.tsx lines 334-371).  On
an ok response the merged record goes to `onSuccess` and `onClose` runs;
on a non-ok response the code throws `Error(err.message || "Failed to
update profile")` and the catch shows a "Save failed" toast whose
description is the thrown message; a thrown network error reaches the same
catch with its own message.  `handleSave` never writes the staged form
fields, so the outcome carries them unchanged. -/
def handleSave (user : UserInformationDetail) (f : StagedForm) (patch : PatchOutcome) :
    SaveOutcome :=
  match patch with
  | PatchOutcome.ok =>
      { onSuccessArg := some (mergeOnSuccess user f)
        closedDialog := true
        toast := { isError := false, title := "Profile updated successfully!", description := none }
        form := f }
  | PatchOutcome.errResponse m =>
      { onSuccessArg := none
        closedDialog := false
        toast := { isError := true, title := "Save failed",
                   description := some (jsOrOptString m "Failed to update profile") }
        form := f }
  | PatchOutcome.networkError m =>
      { onSuccessArg := none
        closedDialog := false
        toast := { isError := true, title := "Save failed", description := some m }
        form := f }

/- ---------------------------------------------------------------------
   Concrete sample values used by witnesses and counterexamples
   --------------------------------------------------------------------- -/

/-- A concrete team record, keyed by pk `"t2"`. -/
def sampleTeam : TeamInformationBrief :=
  { name := "team-two", pk := "t2", parent := none, teamType := TeamType.project
    seasonType := SeasonKind.fall, seasonYear := 2026, description := "A project team"
    friendlyName := "Team Two", peoplePortalCreation := true }

/-- A concrete user record whose `expectedGrad` is a full ISO 8601
timestamp (at UTC noon, so its calendar date reads the same in every real
timezone). -/
def c4User : UserInformationDetail :=
  { pk := "u1", username := "jdoe", name := "Jane Doe", email := "jdoe@example.edu"
    memberSince := "2024-09-01T00:00:00.000Z", active := true
    attributes :=
      { major := "Computer Science", expectedGrad := "2026-05-15T12:00:00.000Z"
        phoneNumber := "+13015550100", roles := [("t1", "Lead")], alumniAccount := false
        avatar := some "avatars/u1/a.webp" }
    is_superuser := false, avatar := "https://cdn.example/u1.webp"
    groups := ["g1"], last_login := "2026-01-01T00:00:00.000Z", type := "internal"
    groupsInfo := [] }

/-- A concrete staged form. -/
def sampleForm : StagedForm :=
  { phoneNumber := "+13015550123", expectedGrad := "2026-05-15", selectedMajor := none
    avatarKey := some "avatars/u1/a.webp", preview := some "https://cdn.example/u1.webp" }

/-- An upload run in which cropping and compression succeed but the
upload-URL request returns a non-ok status. -/
def envUrlFail : UploadEnv :=
  { cropSucceeds := true, cropErrorMsg := "", compressSucceeds := true, compressErrorMsg := ""
    localUrl := "blob:new-avatar", urlRequestOk := false
    uploadUrl := "https://storage.example/bucket", key := "avatars/self/new", postOk := true }

/-- A modal state with a staged crop image and crop area, and a previously
displayed avatar preview and key. -/
def stagedAvatarState : AvatarState :=
  { preview := some "https://cdn.example/old-avatar.webp", avatarKey := some "avatars/self/old"
    isUploading := false, cropImage := some "data:image/webp;base64,AAAA"
    croppedAreaPixels := some { x := 0, y := 0, width := 100, height := 100 }
    isCroppingOpen := true }

/-- An oversized file (20 MiB + 1 byte) with a genuine PNG header and an
allow-listed MIME type. -/
def oversizedPngFile : SelectedFile :=
  { mime := "image/png", size := 20 * 1024 * 1024 + 1
    headerBytes := [0x89, 0x50, 0x4e, 0x47] }

/- ---------------------------------------------------------------------
   Helper lemmas
   --------------------------------------------------------------------- -/

/-- The unpadded hex rendering of a byte has one or two characters. -/
theorem byteToHexChars_length_le (b : Nat) : (byteToHexChars b).length ≤ 2 := by
  unfold byteToHexChars
  split <;> simp

/-- A longer list is never a prefix of a shorter one. -/
theorem isPrefixOf_false_of_shorter (l₁ l₂ : List Char) (h : l₂.length < l₁.length) :
    l₁.isPrefixOf l₂ = false := by
  cases hp : l₁.isPrefixOf l₂
  · rfl
  · exfalso
    have hpre : l₁ <+: l₂ := List.isPrefixOf_iff_prefix.mp hp
    have := hpre.length_le
    omega

/- ---------------------------------------------------------------------
   Claim theorems
   --------------------------------------------------------------------- -/

/-- C1: the claim states that every file whose declared MIME type is
allow-listed but whose first four bytes match none of the magic prefixes
is rejected by `validateFileSignature` and `onFileChange`.  The code
builds the header with UNPADDED `toString(16)`, so the `image/jpeg` file
whose first four bytes are `ff d8 0f 0f` — which matches no magic prefix,
its third byte being `0f`, not `ff` — renders as the header `"ffd8ff"`,
passes the `startsWith` test for JPEG, and is accepted all the way into
the cropper.  This theorem evaluates the code at that failing input. -/
theorem c1_signature_validator_accepts_unmatched_magic :
    matchesMagicBytes [0xff, 0xd8, 0x0f, 0x0f] = false ∧
    validateFileSignature [0xff, 0xd8, 0x0f, 0x0f] = true ∧
    onFileChange { mime := "image/jpeg", size := 4, headerBytes := [0xff, 0xd8, 0x0f, 0x0f] }
      = FileChangeResult.accepted := by
  refine ⟨by decide, by decide, by decide⟩

/-- C2 counterexample: the claim states that when the upload-URL request
or the storage POST fails, the previously displayed avatar preview is left
untouched.  In the run `envUrlFail` (upload-URL request fails) starting
from `stagedAvatarState`, the preview has already been swapped to the
local object URL of the processed image, so it is NOT the previously
displayed preview — only the avatarKey candidate is left unset. -/
theorem c2_preview_swapped_on_failed_upload :
    (processAndUploadAvatar envUrlFail stagedAvatarState).1.preview ≠ stagedAvatarState.preview ∧
    (processAndUploadAvatar envUrlFail stagedAvatarState).1.preview = some "blob:new-avatar" ∧
    (processAndUploadAvatar envUrlFail stagedAvatarState).1.avatarKey = stagedAvatarState.avatarKey ∧
    UploadEvent.errorToast "Failed to get upload URL"
      ∈ (processAndUploadAvatar envUrlFail stagedAvatarState).2 := by
  refine ⟨by decide, by decide, by decide, by decide⟩

/-- C2 amended: in every run of `processAndUploadAvatar` in which cropping
and compression succeed but the upload-URL request or the storage POST
fails, the avatarKey candidate is not set (it is left at its prior value
and no key-adoption occurs), but the displayed preview is swapped to the
local object URL of the processed image before the first network request,
so the previously displayed avatar preview is replaced rather than left
untouched. -/
theorem c2_failed_upload_keeps_key_but_swaps_preview :
    ∀ (env : UploadEnv) (s : AvatarState),
      s.cropImage.isNone = false → s.croppedAreaPixels.isNone = false →
      env.cropSucceeds = true → env.compressSucceeds = true →
      (env.urlRequestOk = false ∨ env.postOk = false) →
      (processAndUploadAvatar env s).1.avatarKey = s.avatarKey ∧
      (processAndUploadAvatar env s).1.preview = some env.localUrl ∧
      (∀ k, UploadEvent.keyAdopted k ∉ (processAndUploadAvatar env s).2) := by
  intro env s h1 h2 h3 h4 h5
  rcases h5 with h5 | h5
  · simp [processAndUploadAvatar, h1, h2, h3, h4, h5]
  · by_cases hu : env.urlRequestOk
    · simp [processAndUploadAvatar, h1, h2, h3, h4, h5, hu]
    · simp [processAndUploadAvatar, h1, h2, h3, h4, hu]

/-- C2 witness: the amended theorem applied to the concrete failing run. -/
theorem c2_witness :
    (processAndUploadAvatar envUrlFail stagedAvatarState).1.avatarKey
        = stagedAvatarState.avatarKey ∧
    (processAndUploadAvatar envUrlFail stagedAvatarState).1.preview = some envUrlFail.localUrl ∧
    (∀ k, UploadEvent.keyAdopted k ∉ (processAndUploadAvatar envUrlFail stagedAvatarState).2) :=
  c2_failed_upload_keeps_key_but_swaps_preview envUrlFail stagedAvatarState
    (by decide) (by decide) (by decide) (by decide) (Or.inl (by decide))

/-- C3: in every run of `processAndUploadAvatar`, if the upload-URL
request fails then no POST to any storage endpoint is attempted and the
avatarKey is left unchanged; and the avatarKey is set to the returned key
only when both the upload-URL request and the storage POST return
success. -/
theorem c3_two_phase_upload_protocol :
    ∀ (env : UploadEnv) (s : AvatarState),
      (env.urlRequestOk = false →
        (∀ t, UploadEvent.postAttempted t ∉ (processAndUploadAvatar env s).2) ∧
        (processAndUploadAvatar env s).1.avatarKey = s.avatarKey) ∧
      (∀ k, UploadEvent.keyAdopted k ∈ (processAndUploadAvatar env s).2 →
        env.urlRequestOk = true ∧ env.postOk = true ∧ k = env.key ∧
        (processAndUploadAvatar env s).1.avatarKey = some env.key) ∧
      ((processAndUploadAvatar env s).1.avatarKey ≠ s.avatarKey →
        env.urlRequestOk = true ∧ env.postOk = true ∧
        (processAndUploadAvatar env s).1.avatarKey = some env.key) := by
  intro env s
  by_cases hg : s.cropImage = none ∨ s.croppedAreaPixels = none
  · simp [processAndUploadAvatar, hg]
  · by_cases hc : env.cropSucceeds <;>
      by_cases hk : env.compressSucceeds <;>
        by_cases hu : env.urlRequestOk <;>
          by_cases hp : env.postOk <;>
            simp [processAndUploadAvatar, hg, hc, hk, hu, hp]

/-- C3 witness: the theorem applied to the concrete run in which the
upload-URL request fails. -/
theorem c3_witness :
    (∀ t, UploadEvent.postAttempted t
        ∉ (processAndUploadAvatar envUrlFail stagedAvatarState).2) ∧
    (processAndUploadAvatar envUrlFail stagedAvatarState).1.avatarKey
        = stagedAvatarState.avatarKey :=
  (c3_two_phase_upload_protocol envUrlFail stagedAvatarState).1 (by decide)

/-- C4 counterexample: the claim states that a save changing only the
phone number leaves `expectedGrad` equal to its prior value in the merged
record.  `EditProfileModal` initializes the staged `expectedGrad` as the
`'yyyy-MM-dd'` rendering of the prior value (here `"2026-05-15"` for the
prior ISO timestamp `"2026-05-15T12:00:00.000Z"`; an instant at UTC noon
renders as the same calendar date in every real timezone), and the merge
writes that staged rendering back, so the merged `expectedGrad` is NOT the
prior value. -/
theorem c4_expectedGrad_rewritten_counterexample :
    (mergeOnSuccess c4User
        { initialStagedForm c4User "2026-05-15" none with phoneNumber := "+13015550123" }
      ).attributes.expectedGrad = "2026-05-15" ∧
    (mergeOnSuccess c4User
        { initialStagedForm c4User "2026-05-15" none with phoneNumber := "+13015550123" }
      ).attributes.expectedGrad ≠ c4User.attributes.expectedGrad := by
  refine ⟨by decide, by decide⟩

/-- C4 amended: for every save in which only the phone number was changed
(the other staged fields left as `EditProfileModal` initialized them from
the prior record, the majors-directory entry — when one was found — having
the prior major as its name), the merged record keeps `major`, top-level
`avatar`, and `attributes.avatar` exactly equal to their prior values and
carries the new phone number; `expectedGrad`, however, is kept equal to
its prior value only when that value is empty, and is otherwise replaced
by the form's non-empty `'yyyy-MM-dd'` rendering of it, which coincides
with the prior value only when the prior value is already in that form. -/
theorem c4_phone_only_save_frame :
    ∀ (user : UserInformationDetail) (newPhone gradRendering : String)
      (majorInit : Option UMDMajor),
      (∀ m, majorInit = some m → m.name = user.attributes.major) →
      (mergeOnSuccess user
          { initialStagedForm user gradRendering majorInit with phoneNumber := newPhone }
        ).attributes.major = user.attributes.major ∧
      (mergeOnSuccess user
          { initialStagedForm user gradRendering majorInit with phoneNumber := newPhone }
        ).attributes.avatar = user.attributes.avatar ∧
      (mergeOnSuccess user
          { initialStagedForm user gradRendering majorInit with phoneNumber := newPhone }
        ).avatar = user.avatar ∧
      (mergeOnSuccess user
          { initialStagedForm user gradRendering majorInit with phoneNumber := newPhone }
        ).attributes.phoneNumber = newPhone ∧
      (mergeOnSuccess user
          { initialStagedForm user gradRendering majorInit with phoneNumber := newPhone }
        ).attributes.expectedGrad =
        (if user.attributes.expectedGrad = "" then user.attributes.expectedGrad
         else jsOrString gradRendering user.attributes.expectedGrad) := by
  intro user newPhone gradRendering majorInit hmi
  refine ⟨?_, ?_, ?_, rfl, ?_⟩
  · cases majorInit with
    | none => simp [mergeOnSuccess, initialStagedForm, jsOrOptString]
    | some m =>
      have hname := hmi m rfl
      simp [mergeOnSuccess, initialStagedForm, jsOrOptString, jsOrString, hname]
  · cases ha : user.attributes.avatar with
    | none => simp [mergeOnSuccess, initialStagedForm, jsOrOptOpt, ha]
    | some s => simp [mergeOnSuccess, initialStagedForm, jsOrOptOpt, ha]
  · simp [mergeOnSuccess, initialStagedForm, jsOrOptString, jsOrString]
  · by_cases hg : user.attributes.expectedGrad = ""
    · simp [mergeOnSuccess, initialStagedForm, jsOrString, hg]
    · simp [mergeOnSuccess, initialStagedForm, jsOrString, hg]

/-- C4 witness: the amended theorem applied at the concrete user and
staged form. -/
theorem c4_witness :
    (mergeOnSuccess c4User
        { initialStagedForm c4User "2026-05-15" none with phoneNumber := "+13015550123" }
      ).attributes.major = c4User.attributes.major :=
  (c4_phone_only_save_frame c4User "+13015550123" "2026-05-15" none
      (fun m h => by cases h)).1

/-- C5: for every successful save, the merged record passed to `onSuccess`
leaves every field other than the avatar preview and the staged attribute
fields unchanged: `pk`, `username`, `name`, `email`, `memberSince`,
`active`, `is_superuser`, `groups`, `last_login`, `type`, `groupsInfo`,
and the non-staged attribute fields `roles` and `alumniAccount` are all
exactly those of the prior record. -/
theorem c5_merge_frame_fields_unchanged :
    ∀ (user : UserInformationDetail) (f : StagedForm),
      (mergeOnSuccess user f).pk = user.pk ∧
      (mergeOnSuccess user f).username = user.username ∧
      (mergeOnSuccess user f).name = user.name ∧
      (mergeOnSuccess user f).email = user.email ∧
      (mergeOnSuccess user f).memberSince = user.memberSince ∧
      (mergeOnSuccess user f).active = user.active ∧
      (mergeOnSuccess user f).is_superuser = user.is_superuser ∧
      (mergeOnSuccess user f).groups = user.groups ∧
      (mergeOnSuccess user f).last_login = user.last_login ∧
      (mergeOnSuccess user f).type = user.type ∧
      (mergeOnSuccess user f).groupsInfo = user.groupsInfo ∧
      (mergeOnSuccess user f).attributes.roles = user.attributes.roles ∧
      (mergeOnSuccess user f).attributes.alumniAccount = user.attributes.alumniAccount := by
  intro user f
  exact ⟨rfl, rfl, rfl, rfl, rfl, rfl, rfl, rfl, rfl, rfl, rfl, rfl, rfl⟩

/-- C6: the role-entry builder emits an entry for a team pk appearing in
the roles mapping if and only if that pk resolves in the team lookup map;
in particular `roles = [("t1", "Lead")]` against a map containing only
`"t2"` yields the empty list, and the empty map yields zero entries. -/
theorem c6_roleEntries_emitted_iff_resolvable :
    (∀ (roles : List (String × String)) (m : List (String × TeamInformationBrief))
        (r : String × String), r ∈ roles →
        ((∃ e ∈ roleEntries roles m, e.teamPk = r.1) ↔ (mapGet m r.1).isSome = true)) ∧
    roleEntries [("t1", "Lead")] [("t2", sampleTeam)] = [] ∧
    roleEntries [("t1", "Lead")] [] = [] := by
  refine ⟨?_, by decide, by decide⟩
  intro roles m r hr
  constructor
  · rintro ⟨e, he, hpk⟩
    rw [roleEntries, List.mem_filter] at he
    obtain ⟨hmem, hsome⟩ := he
    rw [List.mem_map] at hmem
    obtain ⟨p, hp, hep⟩ := hmem
    subst hep
    rw [show p.1 = r.1 from hpk] at hsome
    exact hsome
  · intro hsome
    refine ⟨{ teamPk := r.1, roleTitle := r.2, teamInfo := mapGet m r.1 }, ?_, rfl⟩
    rw [roleEntries, List.mem_filter]
    exact ⟨List.mem_map.mpr ⟨r, hr, rfl⟩, hsome⟩

/-- C6 witness: the theorem applied to a roles mapping and a map in which
the pk does resolve. -/
theorem c6_witness :
    ∃ e ∈ roleEntries [("t2", "Lead")] [("t2", sampleTeam)], e.teamPk = "t2" :=
  (c6_roleEntries_emitted_iff_resolvable.1 [("t2", "Lead")] [("t2", sampleTeam)]
      ("t2", "Lead") (by decide)).mpr (by decide)

/-- C7: `validateFullName` accepts exactly the strings whose trimmed form
contains at least two whitespace-delimited non-empty tokens, and on the
cited concrete inputs: `"Jane"` is invalid, `"  Jane   Doe  "` is valid,
and `""` is invalid with the message "Full name is required". -/
theorem c7_validateFullName_spec :
    (∀ s : String, ((validateFullName s).isValid = true ↔ 2 ≤ (fullNameParts s).length)) ∧
    (validateFullName "Jane").isValid = false ∧
    (validateFullName "  Jane   Doe  ").isValid = true ∧
    validateFullName "" = { isValid := false, error := some "Full name is required" } := by
  refine ⟨?_, by decide, by decide, by decide⟩
  intro s
  by_cases h0 : s = ""
  · subst h0
    decide
  · by_cases h2 : (fullNameParts s).length < 2
    · simp [validateFullName, h0, h2]
    · simp [validateFullName, h0, h2]
      omega

/-- C7 witness: the general equivalence applied at a concrete input. -/
theorem c7_witness : (validateFullName "Jane Doe").isValid = true :=
  (c7_validateFullName_spec.1 "Jane Doe").mpr (by decide)

/-- C8 counterexample: the claim states that the message surfaced on a
failed PATCH is the server-provided error text if present, else a generic
failure message.  When the PATCH fails with a thrown network error —
explicitly within the claim's scope — no server text exists, yet the
surfaced description is the thrown error's own message, not the generic
"Failed to update profile". -/
theorem c8_network_error_message_counterexample :
    (handleSave c4User sampleForm
        (PatchOutcome.networkError "NetworkError when attempting to fetch resource.")
      ).toast.description = some "NetworkError when attempting to fetch resource." ∧
    (handleSave c4User sampleForm
        (PatchOutcome.networkError "NetworkError when attempting to fetch resource.")
      ).toast.description ≠ some "Failed to update profile" := by
  refine ⟨rfl, by decide⟩

/-- C8 amended: for every run of `handleSave` in which the PATCH fails
(non-ok response or thrown error), the staged form values are left
unchanged and neither `onSuccess` nor `onClose` is invoked, so the dialog
stays open with the staged values intact; for a non-ok response the
surfaced description is the server's message field if present and
non-empty, else the generic "Failed to update profile", while for a
thrown error the surfaced description is that error's own message. -/
theorem c8_failed_patch_keeps_state :
    ∀ (user : UserInformationDetail) (f : StagedForm) (patch : PatchOutcome),
      patch ≠ PatchOutcome.ok →
      (handleSave user f patch).onSuccessArg = none ∧
      (handleSave user f patch).closedDialog = false ∧
      (handleSave user f patch).form = f ∧
      (∀ m, patch = PatchOutcome.errResponse m →
        (handleSave user f patch).toast.description
          = some (jsOrOptString m "Failed to update profile")) ∧
      (∀ m, patch = PatchOutcome.networkError m →
        (handleSave user f patch).toast.description = some m) := by
  intro user f patch hp
  cases patch with
  | ok => exact absurd rfl hp
  | errResponse m =>
    refine ⟨rfl, rfl, rfl, fun m2 hm2 => ?_, fun m2 hm2 => ?_⟩
    · cases hm2
      rfl
    · exact PatchOutcome.noConfusion hm2
  | networkError m =>
    refine ⟨rfl, rfl, rfl, fun m2 hm2 => ?_, fun m2 hm2 => ?_⟩
    · exact PatchOutcome.noConfusion hm2
    · cases hm2
      rfl

/-- C8 witness: the amended theorem applied to a concrete failed PATCH. -/
theorem c8_witness :
    (handleSave c4User sampleForm (PatchOutcome.errResponse none)).onSuccessArg = none :=
  (c8_failed_patch_keeps_state c4User sampleForm (PatchOutcome.errResponse none)
      (by decide)).1

/-- C9 counterexample: the claim states that the over-20-MiB rejection
occurs before signature-checking proceeds.  On a 20 MiB + 1 byte PNG with
an allow-listed MIME type, `onFileChange` executes the signature check
(reading the file's bytes) BEFORE the size gate, and only then rejects for
size — the executed-gate trace places `signatureCheck` ahead of
`sizeCheck`. -/
theorem c9_size_checked_after_signature :
    oversizedPngFile.size > 20 * 1024 * 1024 ∧
    onFileChange oversizedPngFile = FileChangeResult.rejectedSize ∧
    onFileChangeChecks oversizedPngFile
      = [FileCheck.typeCheck, FileCheck.signatureCheck, FileCheck.sizeCheck] := by
  refine ⟨by decide, by decide, by decide⟩

/-- C9 amended: every selected file whose size exceeds 20 MiB is rejected
by `onFileChange` regardless of its content, but the size gate runs last:
when the rejection is the size rejection, the signature check has already
been executed (and succeeded). -/
theorem c9_oversized_always_rejected :
    ∀ f : SelectedFile, f.size > 20 * 1024 * 1024 →
      onFileChange f ≠ FileChangeResult.accepted ∧
      (onFileChange f = FileChangeResult.rejectedSize →
        FileCheck.signatureCheck ∈ onFileChangeChecks f ∧
        validateFileSignature f.headerBytes = true) := by
  intro f h
  by_cases hm : f.mime ∈ allowedTypes
  · by_cases hs : validateFileSignature f.headerBytes
    · exact ⟨by simp [onFileChange, hm, hs, h], fun _ => by simp [onFileChangeChecks, hm, hs]⟩
    · exact ⟨by simp [onFileChange, hm, hs], fun hc => by simp [onFileChange, hm, hs] at hc⟩
  · exact ⟨by simp [onFileChange, hm], fun hc => by simp [onFileChange, hm] at hc⟩

/-- C9 witness: the amended theorem applied to the concrete oversized
file. -/
theorem c9_witness : onFileChange oversizedPngFile ≠ FileChangeResult.accepted :=
  (c9_oversized_always_rejected oversizedPngFile (by decide)).1

/-- C10: for every file of fewer than 3 bytes, the hex header — built from
at most 2 bytes — has at most 4 characters, shorter than every recognized
magic-number hex string (the shortest, JPEG's, has 6), so no `startsWith`
match can succeed and `validateFileSignature` resolves false. -/
theorem c10_short_file_rejected :
    ∀ bytes : List Nat, bytes.length < 3 →
      (fileHeaderHex bytes).length ≤ 4 ∧ validateFileSignature bytes = false := by
  intro bytes h
  have hlen : (fileHeaderHex bytes).length ≤ 4 := by
    match bytes, h with
    | [], _ => decide
    | [a], _ =>
      have := byteToHexChars_length_le a
      simp [fileHeaderHex]
      omega
    | [a, b], _ =>
      have ha := byteToHexChars_length_le a
      have hb := byteToHexChars_length_le b
      simp [fileHeaderHex]
      omega
  refine ⟨hlen, ?_⟩
  have h1 : List.isPrefixOf ['8', '9', '5', '0', '4', 'e', '4', '7'] (fileHeaderHex bytes)
      = false := by
    apply isPrefixOf_false_of_shorter
    simp
    omega
  have h2 : List.isPrefixOf ['f', 'f', 'd', '8', 'f', 'f'] (fileHeaderHex bytes) = false := by
    apply isPrefixOf_false_of_shorter
    simp
    omega
  have h3 : List.isPrefixOf ['4', '7', '4', '9', '4', '6', '3', '8'] (fileHeaderHex bytes)
      = false := by
    apply isPrefixOf_false_of_shorter
    simp
    omega
  have h4 : List.isPrefixOf ['5', '2', '4', '9', '4', '6', '4', '6'] (fileHeaderHex bytes)
      = false := by
    apply isPrefixOf_false_of_shorter
    simp
    omega
  simp [validateFileSignature, h1, h2, h3, h4]

/-- C10 witness: the theorem applied to a concrete two-byte file. -/
theorem c10_witness :
    (fileHeaderHex [0xff, 0xd8]).length ≤ 4 ∧ validateFileSignature [0xff, 0xd8] = false :=
  c10_short_file_rejected [0xff, 0xd8] (by decide)

end PeoplePortal
